import Mathlib

/-
Verification development for the remote-approval authentication core:
the multi-factor challenge race coordinator (package mfa), the
certificate-rotation-aware client cache (package syncclient), and the
headless authentication watcher (package daemon).

Errors from the gravitational/trace library are modelled as an inductive
type.  `trace.Wrap(err)` without a message only attaches a stack trace and
has no observable error semantics, so it is modelled as the identity;
`trace.Wrap(err, msg)` attaches a message and is modelled by the `wrapMsg`
constructor.  `trace.NewAggregate` filters out nils, returns nil (here
`none`) for an empty list, and otherwise an aggregate holding the errors
in order.
-/

/- Model of Go error values as produced through the gravitational/trace
library.  `external` stands for an arbitrary opaque error value (for
example an error pushed by a modality goroutine, or returned by the
certificate getter or client builder). -/
inductive Err where
  | errUsingNonRegisteredDevice : Err
  | external (tag : String) : Err
  | badParameter (msg : String) : Err
  | compareFailed (msg : String) : Err
  | notFound (msg : String) : Err
  | errorf (msg : String) : Err
  | aggregate (errs : List Err) : Err
  | wrapMsg (e : Err) (msg : String) : Err

/- `errors.Is(err, wancli.ErrUsingNonRegisteredDevice)`: the sentinel is
matched directly, through `trace.Wrap` message wrappers (whose Unwrap
exposes the inner error), and through aggregates (whose Is method checks
every member). -/
mutual

def isUsingNonRegisteredDevice : Err → Bool
  | .errUsingNonRegisteredDevice => true
  | .wrapMsg e _ => isUsingNonRegisteredDevice e
  | .aggregate l => anyUsingNonRegisteredDevice l
  | _ => false

def anyUsingNonRegisteredDevice : List Err → Bool
  | [] => false
  | e :: rest => isUsingNonRegisteredDevice e || anyUsingNonRegisteredDevice rest

end

/- `trace.IsCompareFailed`, unwrapping trace wrappers. -/
def Err.isCompareFailed : Err → Bool
  | .compareFailed _ => true
  | .wrapMsg e _ => e.isCompareFailed
  | _ => false

/- `trace.IsNotFound`, unwrapping trace wrappers. -/
def Err.isNotFound : Err → Bool
  | .notFound _ => true
  | .wrapMsg e _ => e.isNotFound
  | _ => false

/- `trace.IsBadParameter`, unwrapping trace wrappers. -/
def Err.isBadParameter : Err → Bool
  | .badParameter _ => true
  | .wrapMsg e _ => e.isBadParameter
  | _ => false

/- `trace.NewAggregate(errs...)`: nil for the empty list, otherwise an
aggregate of the errors in order (our lists never hold nil errors, so the
nil filter is a no-op). -/
def newAggregate (errs : List Err) : Option Err :=
  if errs.isEmpty then none else some (.aggregate errs)

/- `trace.Wrap(err, msg)` on a possibly-nil error: nil stays nil. -/
def traceWrapOpt (e : Option Err) (msg : String) : Option Err :=
  e.map (fun err => .wrapMsg err msg)

namespace mfa

/- The payload of a successful MFA response; contents are opaque to the
coordinator, an id stands for the concrete response value. -/
structure MFAAuthenticateResponse where
  id : Nat

/- MFAGoroutineResponse is an MFA goroutine response. -/
structure MFAGoroutineResponse where
  Resp : Option MFAAuthenticateResponse
  Err : Option Err

def failedAuthMsg : String := "failed to authenticate using available MFA devices"

/- The receive loop of HandleMFAGoroutines over the results read from the
response channel, carrying the `errs` accumulator.  A result whose error
matches the non-registered-device sentinel is returned at once
(`trace.Wrap(resp.Err)` is a stack-only wrap, modelled as identity); any
other error is collected and the loop continues; a nil error returns the
response.  When the channel closes the collected errors are aggregated
and wrapped with the failure message. -/
def handleMFALoop : List MFAGoroutineResponse → List Err →
    Option MFAAuthenticateResponse × Option Err
  | [], errs => (none, traceWrapOpt (newAggregate errs) failedAuthMsg)
  | r :: rest, errs =>
    match r.Err with
    | some e =>
      if isUsingNonRegisteredDevice e then (none, some e)
      else handleMFALoop rest (errs ++ [e])
    | none => (r.Resp, none)

/- HandleMFAGoroutines, as a function of the ordered list of results
received on the response channel (the channel order is the order in which
the modality goroutines completed). -/
def HandleMFAGoroutines (results : List MFAGoroutineResponse) :
    Option MFAAuthenticateResponse × Option Err :=
  handleMFALoop results []

end mfa

namespace mfa

/- The desired authenticator attachment (wancli.AuthenticatorAttachment).
AttachmentAuto is the zero value. -/
inductive AuthenticatorAttachment where
  | attachmentAuto
  | attachmentCrossPlatform
  | attachmentPlatform

def AuthenticatorAttachment.isAuto : AuthenticatorAttachment → Bool
  | .attachmentAuto => true
  | _ => false

/- PromptConfig contains common mfa prompt config options.  The
WebauthnLoginFunc field is a Go function value that GetRunOptions never
consults, so it is omitted here. -/
structure PromptConfig where
  ProxyAddress : String
  PromptReason : String
  DeviceType : String
  Quiet : Bool
  AllowStdinHijack : Bool
  AuthenticatorAttachment : AuthenticatorAttachment
  PreferOTP : Bool
  WebauthnSupported : Bool

/- The challenge payload; GetRunOptions only inspects whether the TOTP
and WebauthnChallenge sub-challenge pointers are nil, so each is modelled
by its presence. -/
structure MFAAuthenticateChallenge where
  TOTP : Option Unit
  WebauthnChallenge : Option Unit

/- RunOpts are mfa prompt run options. -/
structure RunOpts where
  PromptTOTP : Bool
  PromptWebauthn : Bool

/- GetRunOptions gets mfa prompt run options by cross referencing the mfa
challenge with prompt configuration.  Translated branch for branch from
the source: the first switch returns a BadParameter when neither modality
can run and clears promptWebauthn when the platform lacks support; the
second switch applies its first matching case only. -/
def PromptConfig.GetRunOptions (c : PromptConfig) (chal : MFAAuthenticateChallenge) :
    Except Err RunOpts :=
  let promptTOTP := chal.TOTP.isSome
  let promptWebauthn := chal.WebauthnChallenge.isSome
  if !promptTOTP && !promptWebauthn then
    .error (.badParameter "mfa challenge is empty")
  else if !promptTOTP && !c.WebauthnSupported then
    .error (.badParameter "hardware device MFA not supported by your platform, please register an OTP device")
  else
    let promptWebauthn := promptWebauthn && c.WebauthnSupported
    let opts :=
      if promptTOTP && c.PreferOTP then RunOpts.mk promptTOTP false
      else if promptWebauthn && !c.AuthenticatorAttachment.isAuto then RunOpts.mk false promptWebauthn
      else if promptWebauthn && !c.AllowStdinHijack then RunOpts.mk false promptWebauthn
      else RunOpts.mk promptTOTP promptWebauthn
    .ok opts

end mfa

namespace syncclient

/- The mutable state of the client cache (package syncclient).  A client
handle (*SyncClient) is identified by a Nat.  The mutex serializes calls
and is implicit in the sequential model; the clientBuilder and certGetter
function fields become per-call parameters of Get, since their outcomes
vary between calls. -/
structure Cache where
  cachedCert : List Nat
  cachedClient : Option Nat

/- Everything observable about one Get call: its return value, the cache
state afterwards, whether the client builder was invoked, and the clients
whose RetireClient call was spawned on a background goroutine. -/
structure GetOutcome where
  result : Except Err Nat
  state : Cache
  builderInvoked : Bool
  retireScheduled : List Nat

def noCertErr : Err := .compareFailed "no certificate in tbot's memory, cannot compare"

/- The rebuild path of Get: oldClient := c.cachedClient; build; on error
return it (builder was invoked, state untouched, nothing retired); on
success store the new cert and client and fire `go oldClient.RetireClient()`
for a previous client, if any. -/
def cacheRebuild (c : Cache) (cert : List Nat) (buildResult : Except Err Nat) : GetOutcome :=
  match buildResult with
  | .error e => ⟨.error e, c, true, []⟩
  | .ok fresh =>
    ⟨.ok fresh, ⟨cert, some fresh⟩, true,
      match c.cachedClient with
      | some old => [old]
      | none => []⟩

/- Cache.Get.  `certResult` is what the certGetter returns (none models a
nil byte slice); `buildResult` is what the clientBuilder would return if
invoked.  A getter error is wrapped (stack-only, identity here); nil or
empty bytes fail with CompareFailed; matching bytes with a cached client
are a hit returning the cached client; otherwise the rebuild path runs. -/
def Cache.Get (c : Cache) (certResult : Except Err (Option (List Nat)))
    (buildResult : Except Err Nat) : GetOutcome :=
  match certResult with
  | .error e => ⟨.error e, c, false, []⟩
  | .ok none => ⟨.error noCertErr, c, false, []⟩
  | .ok (some cert) =>
    if cert.isEmpty then ⟨.error noCertErr, c, false, []⟩
    else
      match c.cachedClient with
      | some cached =>
        if cert = c.cachedCert then ⟨.ok cached, c, false, []⟩
        else cacheRebuild c cert buildResult
      | none => cacheRebuild c cert buildResult

end syncclient

namespace daemon

/- types.HeadlessAuthenticationState values used by the watcher. -/
inductive HAState where
  | unspecified
  | pending
  | denied
  | approved

/- The fields of a headless authentication resource the watcher reads. -/
structure HeadlessAuthentication where
  name : String
  state : HAState

/- The resource carried by a watch event: either a headless
authentication or a resource of some unexpected type (the Go type
assertion `event.Resource.(*types.HeadlessAuthentication)` can fail). -/
inductive Resource where
  | headlessAuthn (ha : HeadlessAuthentication)
  | other (name : String)

def Resource.getName : Resource → String
  | .headlessAuthn ha => ha.name
  | .other n => n

/- types.OpType values relevant to the watch loop. -/
inductive OpType where
  | opInit
  | opPut
  | opDelete

structure Event where
  type : OpType
  resource : Resource

/- The per-watch mutable state of startHeadlessWatcher's closure: the
pendingRequests map from request name to its cancelSend CancelFunc
(context cancel functions are identified by Nats handed out from
nextCancel), and the set of cancel functions that have been invoked. -/
structure WatchState where
  pendingRequests : List (String × Nat)
  cancelled : List Nat
  nextCancel : Nat

def watchInit : WatchState := ⟨[], [], 0⟩

/- Go map assignment `pendingRequests[name] = cancel`: replace any
existing entry for the name. -/
def addPendingRequest (st : WatchState) (name : String) (cancel : Nat) : WatchState :=
  { st with pendingRequests := (name, cancel) :: st.pendingRequests.filter (fun p => !(p.1 == name)) }

/- cancelPendingRequest invokes the registered cancel function, if any.
Note: the source does not delete the map entry. -/
def cancelPendingRequest (st : WatchState) (name : String) : WatchState :=
  match st.pendingRequests.lookup name with
  | some cancel => { st with cancelled := cancel :: st.cancelled }
  | none => st

/- Handling of one event from the pending watcher inside the watch loop:
non-put events are ignored; a put of an unexpected resource type exits the
loop with an error; a put of a headless authentication creates a fresh
cancelSend (context.WithTimeout) and registers it before dispatching the
notification goroutine (the goroutine itself only performs the
notification RPC and never touches the registry). -/
def processPendingEvent (st : WatchState) (ev : Event) : Except Err WatchState :=
  match ev.type with
  | .opPut =>
    match ev.resource with
    | .other _ => .error (.errorf "headless watcher returned an unexpected resource type")
    | .headlessAuthn ha =>
      .ok { addPendingRequest st ha.name st.nextCancel with nextCancel := st.nextCancel + 1 }
  | _ => .ok st

/- Handling of one event from the resolution watcher: a put of a headless
authentication in state approved or denied cancels the pending request of
the same name; a delete cancels by resource name; any other transition or
event type is ignored; a put of an unexpected resource type exits the
loop with an error. -/
def processResolutionEvent (st : WatchState) (ev : Event) : Except Err WatchState :=
  match ev.type with
  | .opPut =>
    match ev.resource with
    | .other _ => .error (.errorf "headless watcher returned an unexpected resource type")
    | .headlessAuthn ha =>
      match ha.state with
      | .approved => .ok (cancelPendingRequest st ha.name)
      | .denied => .ok (cancelPendingRequest st ha.name)
      | _ => .ok st
  | .opDelete => .ok (cancelPendingRequest st ev.resource.getName)
  | .opInit => .ok st

/- One multiplexing step of the watch loop, tagged by the stream the
event arrived on. -/
inductive WatchInput where
  | pending (ev : Event)
  | resolution (ev : Event)

def processInput (st : WatchState) : WatchInput → Except Err WatchState
  | .pending ev => processPendingEvent st ev
  | .resolution ev => processResolutionEvent st ev

/- The watch loop over a finite sequence of delivered events, in stream
order; an error exits the loop. -/
def processInputs (st : WatchState) : List WatchInput → Except Err WatchState
  | [] => .ok st
  | i :: rest => do processInputs (← processInput st i) rest

/- An event on the resolution stream that is a terminal resolution for
request name r: a put moving r to approved or denied, or a delete of r. -/
def isTerminalResolution (ev : Event) (r : String) : Bool :=
  match ev.type with
  | .opPut =>
    match ev.resource with
    | .headlessAuthn ha =>
      ha.name == r && (match ha.state with
        | .approved => true
        | .denied => true
        | _ => false)
    | .other _ => false
  | .opDelete => ev.resource.getName == r
  | .opInit => false

/- The Service-level registry state for headless watchers: the
headlessWatcherClosers map from cluster URI to the watch context's cancel
function (identified by a Nat), and the set of cancel functions already
invoked.  headlessWatcherClosersMu is implicit in the sequential model. -/
structure Service where
  headlessWatcherClosers : List (String × Nat)
  cancelledWatchTokens : List Nat

/- stopHeadlessWatcher: NotFound if no watcher is registered for the
URI; otherwise invoke its closer and delete the registry entry. -/
def Service.stopHeadlessWatcher (s : Service) (uri : String) : Except Err Service :=
  match s.headlessWatcherClosers.lookup uri with
  | none => .error (.notFound ("no headless watcher for cluster " ++ uri))
  | some tok =>
    .ok ⟨s.headlessWatcherClosers.filter (fun p => !(p.1 == uri)),
         tok :: s.cancelledWatchTokens⟩

/- The registry effect of startHeadlessWatcher: stop and remove any
existing watcher for the cluster (a NotFound from the stop is ignored),
then register the fresh watch context's cancel function.  `freshTok`
stands for the cancel function of the newly created watch context
(context.WithCancel always succeeds); the retry construction
retryutils.NewLinear succeeds for the constant configuration used, so no
error path is modelled for it. -/
def Service.startHeadlessWatcher (s : Service) (uri : String) (freshTok : Nat) :
    Except Err Service :=
  let stopped : Except Err Service :=
    match s.stopHeadlessWatcher uri with
    | .error e => if e.isNotFound then .ok s else .error e
    | .ok s1 => .ok s1
  match stopped with
  | .error e => .error e
  | .ok s1 =>
    .ok { s1 with
          headlessWatcherClosers :=
            (uri, freshTok) :: s1.headlessWatcherClosers.filter (fun p => !(p.1 == uri)) }

/- The watches for a cluster that are registered and whose cancel
function has not been invoked. -/
def Service.activeWatches (s : Service) (uri : String) : List Nat :=
  (s.headlessWatcherClosers.filter
    (fun p => p.1 == uri && !(s.cancelledWatchTokens.contains p.2))).map (fun p => p.2)

end daemon

namespace mfa

/- Whether a modality ends up enabled, phrased as the claim states it:
no modality is available when the challenge carries neither sub-challenge,
or carries no TOTP sub-challenge while Webauthn is unsupported. -/
def badCond (c : PromptConfig) (chal : MFAAuthenticateChallenge) : Bool :=
  (!chal.TOTP.isSome && !chal.WebauthnChallenge.isSome) ||
  (!chal.TOTP.isSome && !c.WebauthnSupported)

/- Run options as the claim's preference rules state them, in order:
PreferOTP with TOTP available disables Webauthn; a non-auto
AuthenticatorAttachment with Webauthn available disables TOTP;
AllowStdinHijack unset with Webauthn available disables TOTP.  Webauthn
is available when the challenge carries it and the platform supports it.
This definition follows the claim's words, to be compared against
GetRunOptions. -/
def claimedRunOptions (c : PromptConfig) (chal : MFAAuthenticateChallenge) : RunOpts :=
  let totpAvailable := chal.TOTP.isSome
  let webAvailable := chal.WebauthnChallenge.isSome && c.WebauthnSupported
  if c.PreferOTP && totpAvailable then ⟨totpAvailable, false⟩
  else if !c.AuthenticatorAttachment.isAuto && webAvailable then ⟨false, webAvailable⟩
  else if !c.AllowStdinHijack && webAvailable then ⟨false, webAvailable⟩
  else ⟨totpAvailable, webAvailable⟩

/- Whether a GetRunOptions outcome is a BadParameter-class failure. -/
def isBadParameterResult : Except Err RunOpts → Bool
  | .error e => e.isBadParameter
  | .ok _ => false

end mfa

/-- Claim C3: GetRunOptions returns a BadParameter-class error exactly when
no modality ends up enabled after policy application (the challenge carries
neither a TOTP nor a Webauthn sub-challenge, or carries no TOTP
sub-challenge while Webauthn is unsupported); in every other case it
returns, without error, run options with at least one modality enabled,
computed by the claim's preference rules in order. -/
theorem C3_getRunOptions (c : mfa.PromptConfig) (chal : mfa.MFAAuthenticateChallenge) :
    mfa.isBadParameterResult (c.GetRunOptions chal) = mfa.badCond c chal ∧
    (mfa.badCond c chal = false →
      c.GetRunOptions chal = .ok (mfa.claimedRunOptions c chal) ∧
      ((mfa.claimedRunOptions c chal).PromptTOTP ||
        (mfa.claimedRunOptions c chal).PromptWebauthn) = true) := by
  obtain ⟨pa, pr, dt, q, hijack, att, potp, wsup⟩ := c
  obtain ⟨totp, web⟩ := chal
  cases totp <;> cases web <;> cases wsup <;> cases potp <;> cases att <;> cases hijack <;>
    simp [mfa.PromptConfig.GetRunOptions, mfa.badCond, mfa.claimedRunOptions,
      mfa.isBadParameterResult, Err.isBadParameter, mfa.AuthenticatorAttachment.isAuto]

/-- Claim C3 witness: at a concrete config and challenge where both
modalities are present and Webauthn is supported with default options,
GetRunOptions succeeds with Webauthn enabled. -/
theorem C3_witness :
    mfa.isBadParameterResult (mfa.PromptConfig.GetRunOptions
      ⟨"proxy", "", "", false, false, .attachmentAuto, false, true⟩ ⟨some (), some ()⟩) =
      mfa.badCond ⟨"proxy", "", "", false, false, .attachmentAuto, false, true⟩ ⟨some (), some ()⟩ ∧
    mfa.PromptConfig.GetRunOptions
      ⟨"proxy", "", "", false, false, .attachmentAuto, false, true⟩ ⟨some (), some ()⟩ =
      .ok (mfa.claimedRunOptions
        ⟨"proxy", "", "", false, false, .attachmentAuto, false, true⟩ ⟨some (), some ()⟩) := by
  have h := C3_getRunOptions
    ⟨"proxy", "", "", false, false, .attachmentAuto, false, true⟩ ⟨some (), some ()⟩
  exact ⟨h.1, (h.2 rfl).1⟩

/-- Claim C2 counterexample: with exactly one modality result, an ordinary
failure `external "otp failure"`, HandleMFAGoroutines does not return that
error itself: it returns the error wrapped in a one-element aggregate plus
the coordinator's failure message. -/
theorem C2_counterexample :
    mfa.HandleMFAGoroutines [⟨none, some (.external "otp failure")⟩] =
      (none, some (.wrapMsg (.aggregate [.external "otp failure"]) mfa.failedAuthMsg)) ∧
    mfa.HandleMFAGoroutines [⟨none, some (.external "otp failure")⟩] ≠
      (none, some (.external "otp failure")) := by
  refine ⟨rfl, ?_⟩
  intro h
  injection h with h1 h2
  injection h2 with h3
  exact Err.noConfusion h3

/-- Claim C2 amended: when exactly one modality task runs and pushes an
ordinary (non-fatal) failure e, HandleMFAGoroutines returns e wrapped in a
single-element aggregate together with the coordinator's failure message;
e is the sole underlying modality error. -/
theorem C2_singleFailure (e : Err) (h : isUsingNonRegisteredDevice e = false) :
    mfa.HandleMFAGoroutines [⟨none, some e⟩] =
      (none, some (.wrapMsg (.aggregate [e]) mfa.failedAuthMsg)) := by
  simp [mfa.HandleMFAGoroutines, mfa.handleMFALoop, h, newAggregate, traceWrapOpt]

/-- Claim C2 witness: the amended statement at the concrete ordinary
failure `external "totp fail"`. -/
theorem C2_witness :
    mfa.HandleMFAGoroutines [⟨none, some (.external "totp fail")⟩] =
      (none, some (.wrapMsg (.aggregate [.external "totp fail"]) mfa.failedAuthMsg)) :=
  C2_singleFailure (.external "totp fail") rfl

/- Helper for claim C4: the receive loop returns the fatal error as soon
as it reads it, for any accumulator contents, provided every earlier
result was an ordinary failure. -/
theorem handleMFALoop_fatal (fr : mfa.MFAGoroutineResponse) (f : Err)
    (rest : List mfa.MFAGoroutineResponse)
    (hf : fr.Err = some f) (hfatal : isUsingNonRegisteredDevice f = true) :
    ∀ (pre : List mfa.MFAGoroutineResponse) (errs : List Err),
      (∀ r ∈ pre, ∃ e, r.Err = some e ∧ isUsingNonRegisteredDevice e = false) →
      mfa.handleMFALoop (pre ++ fr :: rest) errs = (none, some f) := by
  intro pre
  induction pre with
  | nil =>
    intro errs _
    simp [mfa.handleMFALoop, hf, hfatal]
  | cons r pre ih =>
    intro errs hpre
    obtain ⟨e, he, hord⟩ := hpre r (List.mem_cons_self r pre)
    have hrec := ih (errs ++ [e]) (fun r hr => hpre r (List.mem_cons_of_mem _ hr))
    simpa [mfa.handleMFALoop, he, hord] using hrec

/-- Claim C4: whenever some modality task pushes the distinguished
non-registered-credential error (every earlier result being an ordinary
failure), HandleMFAGoroutines returns that error as soon as that result is
read — regardless of results not yet pushed (the arbitrary `rest`) — and
does not aggregate it with any other modality's failure. -/
theorem C4_nonRegisteredImmediate (pre : List mfa.MFAGoroutineResponse)
    (fr : mfa.MFAGoroutineResponse) (rest : List mfa.MFAGoroutineResponse) (f : Err)
    (hpre : ∀ r ∈ pre, ∃ e, r.Err = some e ∧ isUsingNonRegisteredDevice e = false)
    (hf : fr.Err = some f) (hfatal : isUsingNonRegisteredDevice f = true) :
    mfa.HandleMFAGoroutines (pre ++ fr :: rest) = (none, some f) :=
  handleMFALoop_fatal fr f rest hf hfatal pre [] hpre

/-- Claim C4 witness: a TOTP failure followed by the non-registered-device
error with no further result pending; the sentinel error is returned as is. -/
theorem C4_witness :
    mfa.HandleMFAGoroutines
      [⟨none, some (.external "totp timeout")⟩, ⟨none, some .errUsingNonRegisteredDevice⟩] =
      (none, some .errUsingNonRegisteredDevice) :=
  C4_nonRegisteredImmediate [⟨none, some (.external "totp timeout")⟩]
    ⟨none, some .errUsingNonRegisteredDevice⟩ [] .errUsingNonRegisteredDevice
    (by
      intro r hr
      rw [List.mem_singleton] at hr
      subst hr
      exact ⟨.external "totp timeout", rfl, rfl⟩)
    rfl rfl

/-- Claim C5: when two modality tasks run and both push ordinary
(non-fatal) failures, HandleMFAGoroutines returns a single aggregate
wrapping both underlying errors in the order their results were received,
together with the coordinator's failure message. -/
theorem C5_bothFail (e1 e2 : Err)
    (h1 : isUsingNonRegisteredDevice e1 = false)
    (h2 : isUsingNonRegisteredDevice e2 = false) :
    mfa.HandleMFAGoroutines [⟨none, some e1⟩, ⟨none, some e2⟩] =
      (none, some (.wrapMsg (.aggregate [e1, e2]) mfa.failedAuthMsg)) := by
  simp [mfa.HandleMFAGoroutines, mfa.handleMFALoop, h1, h2, newAggregate, traceWrapOpt]

/-- Claim C5 witness: two concrete ordinary failures are aggregated in
completion order. -/
theorem C5_witness :
    mfa.HandleMFAGoroutines
      [⟨none, some (.external "webauthn fail")⟩, ⟨none, some (.external "otp fail")⟩] =
      (none, some (.wrapMsg (.aggregate [.external "webauthn fail", .external "otp fail"])
        mfa.failedAuthMsg)) :=
  C5_bothFail (.external "webauthn fail") (.external "otp fail") rfl rfl

/-- Claim C6: when the credential getter returns nil or empty certificate
bytes without an error, Get fails with the CompareFailed "no certificate"
error, returns no handle, leaves the cache untouched, and never invokes
the client builder, whatever the builder would have returned. -/
theorem C6_noCertificate (c : syncclient.Cache) (b : Except Err Nat) :
    syncclient.Cache.Get c (.ok none) b =
      ⟨.error syncclient.noCertErr, c, false, []⟩ ∧
    syncclient.Cache.Get c (.ok (some [])) b =
      ⟨.error syncclient.noCertErr, c, false, []⟩ ∧
    syncclient.noCertErr.isCompareFailed = true :=
  ⟨rfl, rfl, rfl⟩

/-- Claim C7: if a Get call succeeded and built a handle, a second Get
with the same certificate bytes returns the same handle reference without
invoking the builder again: across the two calls the builder runs exactly
once. -/
theorem C7_cacheHitSecondGet (c : syncclient.Cache) (cert : List Nat) (h : Nat)
    (b2 : Except Err Nat)
    (hbuilt : (syncclient.Cache.Get c (.ok (some cert)) (.ok h)).builderInvoked = true) :
    (syncclient.Cache.Get c (.ok (some cert)) (.ok h)).result = .ok h ∧
    (syncclient.Cache.Get (syncclient.Cache.Get c (.ok (some cert)) (.ok h)).state
      (.ok (some cert)) b2).result = .ok h ∧
    (syncclient.Cache.Get (syncclient.Cache.Get c (.ok (some cert)) (.ok h)).state
      (.ok (some cert)) b2).builderInvoked = false := by
  obtain ⟨cc, cl⟩ := c
  by_cases he : cert.isEmpty = true
  · simp [syncclient.Cache.Get, he] at hbuilt
  · cases cl with
    | none => simp [syncclient.Cache.Get, he, syncclient.cacheRebuild]
    | some cached =>
      by_cases hc : cert = cc
      · subst hc
        simp [syncclient.Cache.Get, he] at hbuilt
      · simp [syncclient.Cache.Get, he, hc, syncclient.cacheRebuild]

/-- Claim C7 witness: a first Get on the empty cache builds handle 7; the
second Get with unchanged bytes is a hit for handle 7 with no build. -/
theorem C7_witness :
    (syncclient.Cache.Get ⟨[], none⟩ (.ok (some [1, 2])) (.ok 7)).result = .ok 7 ∧
    (syncclient.Cache.Get (syncclient.Cache.Get ⟨[], none⟩ (.ok (some [1, 2])) (.ok 7)).state
      (.ok (some [1, 2])) (.error (.external "unused"))).result = .ok 7 ∧
    (syncclient.Cache.Get (syncclient.Cache.Get ⟨[], none⟩ (.ok (some [1, 2])) (.ok 7)).state
      (.ok (some [1, 2])) (.error (.external "unused"))).builderInvoked = false :=
  C7_cacheHitSecondGet ⟨[], none⟩ [1, 2] 7 (.error (.external "unused")) rfl

/-- Claim C8: when the current certificate bytes differ from the stored
ones (or nothing is cached yet), a successful Get invokes the builder
exactly once, returns the newly built handle, stores the new certificate
bytes, and schedules retirement of the previous handle, if any, on a
background task (captured by the retireScheduled output, which never
blocks the returned result). -/
theorem C8_rotationRebuild (c : syncclient.Cache) (cert : List Nat) (h : Nat)
    (hne : cert.isEmpty = false)
    (hmiss : c.cachedClient = none ∨ cert ≠ c.cachedCert) :
    (syncclient.Cache.Get c (.ok (some cert)) (.ok h)).result = .ok h ∧
    (syncclient.Cache.Get c (.ok (some cert)) (.ok h)).state = ⟨cert, some h⟩ ∧
    (syncclient.Cache.Get c (.ok (some cert)) (.ok h)).builderInvoked = true ∧
    (∀ old, c.cachedClient = some old →
      (syncclient.Cache.Get c (.ok (some cert)) (.ok h)).retireScheduled = [old]) ∧
    (c.cachedClient = none →
      (syncclient.Cache.Get c (.ok (some cert)) (.ok h)).retireScheduled = []) := by
  obtain ⟨cc, cl⟩ := c
  cases cl with
  | none => simp [syncclient.Cache.Get, hne, syncclient.cacheRebuild]
  | some cached =>
    have hc : cert ≠ cc := by
      rcases hmiss with hmiss | hmiss
      · exact absurd hmiss (by simp)
      · exact hmiss
    simp [syncclient.Cache.Get, hne, hc, syncclient.cacheRebuild]

/-- Claim C8 witness: rotating the bytes from [1] to [2] rebuilds to
handle 9, stores the new bytes, and schedules handle 5 for retirement. -/
theorem C8_witness :
    (syncclient.Cache.Get ⟨[1], some 5⟩ (.ok (some [2])) (.ok 9)).result = .ok 9 ∧
    (syncclient.Cache.Get ⟨[1], some 5⟩ (.ok (some [2])) (.ok 9)).state = ⟨[2], some 9⟩ ∧
    (syncclient.Cache.Get ⟨[1], some 5⟩ (.ok (some [2])) (.ok 9)).builderInvoked = true ∧
    (syncclient.Cache.Get ⟨[1], some 5⟩ (.ok (some [2])) (.ok 9)).retireScheduled = [5] := by
  have h := C8_rotationRebuild ⟨[1], some 5⟩ [2] 9 rfl (Or.inr (by simp))
  exact ⟨h.1, h.2.1, h.2.2.1, h.2.2.2.1 5 rfl⟩

/-- Claim C10: if a rebuild is required and the client builder fails, Get
returns the builder's error, leaves cachedCert and cachedClient unchanged,
and spawns no retirement task, so a later Get can still rebuild or serve
the old cached state. -/
theorem C10_buildErrorKeepsState (c : syncclient.Cache) (cert : List Nat) (e : Err)
    (hne : cert.isEmpty = false)
    (hmiss : c.cachedClient = none ∨ cert ≠ c.cachedCert) :
    syncclient.Cache.Get c (.ok (some cert)) (.error e) = ⟨.error e, c, true, []⟩ := by
  obtain ⟨cc, cl⟩ := c
  cases cl with
  | none => simp [syncclient.Cache.Get, hne, syncclient.cacheRebuild]
  | some cached =>
    have hc : cert ≠ cc := by
      rcases hmiss with hmiss | hmiss
      · exact absurd hmiss (by simp)
      · exact hmiss
    simp [syncclient.Cache.Get, hne, hc, syncclient.cacheRebuild]

/-- Claim C10 witness: a failing rebuild at rotated bytes returns the
build error and keeps the cached cert [1] and client 5 untouched. -/
theorem C10_witness :
    syncclient.Cache.Get ⟨[1], some 5⟩ (.ok (some [2])) (.error (.external "dial failed")) =
      ⟨.error (.external "dial failed"), ⟨[1], some 5⟩, true, []⟩ :=
  C10_buildErrorKeepsState ⟨[1], some 5⟩ [2] (.external "dial failed") rfl
    (Or.inr (by simp))

namespace daemon

/- The two-event run used to examine claim C1: a pending-request put for
request "r" followed by its approval on the resolution stream. -/
def exC1Inputs : List WatchInput :=
  [.pending ⟨.opPut, .headlessAuthn ⟨"r", .pending⟩⟩,
   .resolution ⟨.opPut, .headlessAuthn ⟨"r", .approved⟩⟩]

end daemon

/- Helper: cancelPendingRequest invokes the registered cancel function
but leaves the pendingRequests registry untouched. -/
theorem cancelPendingRequest_spec (st : daemon.WatchState) (name : String) :
    (daemon.cancelPendingRequest st name).pendingRequests = st.pendingRequests ∧
    ∀ tok, st.pendingRequests.lookup name = some tok →
      tok ∈ (daemon.cancelPendingRequest st name).cancelled := by
  cases hl : st.pendingRequests.lookup name with
  | none =>
    constructor
    · simp [daemon.cancelPendingRequest, hl]
    · intro tok htok
      exact Option.noConfusion htok
  | some cancel =>
    constructor
    · simp [daemon.cancelPendingRequest, hl]
    · intro tok htok
      injection htok with hh
      subst hh
      simp [daemon.cancelPendingRequest, hl]

/-- Claim C1 counterexample: delivering a pending-request put for "r" and
then its approval leaves the notification-cancel registry still holding
the entry for "r" (the cancel function was invoked but the entry was not
removed), so the registry does retain an entry for "r" after its terminal
resolution has been processed. -/
theorem C1_counterexample :
    daemon.processInputs daemon.watchInit daemon.exC1Inputs = .ok ⟨[("r", 0)], [0], 1⟩ ∧
    List.lookup "r" [(("r" : String), (0 : Nat))] ≠ none := by
  refine ⟨rfl, ?_⟩
  simp [List.lookup]

/-- Claim C1 amended: processing a terminal resolution event for request
r (a put transitioning r to approved or denied, or a delete of r) invokes
the cancellation handle registered for r, if any, but retains the
registry entry: the pendingRequests registry is unchanged by resolution
events. -/
theorem C1_resolutionCancelsButRetains (st : daemon.WatchState) (ev : daemon.Event)
    (r : String) (h : daemon.isTerminalResolution ev r = true) :
    daemon.processResolutionEvent st ev = .ok (daemon.cancelPendingRequest st r) ∧
    (daemon.cancelPendingRequest st r).pendingRequests = st.pendingRequests ∧
    ∀ tok, st.pendingRequests.lookup r = some tok →
      tok ∈ (daemon.cancelPendingRequest st r).cancelled := by
  have hspec := cancelPendingRequest_spec st r
  refine ⟨?_, hspec.1, hspec.2⟩
  obtain ⟨ty, res⟩ := ev
  cases ty with
  | opInit => simp [daemon.isTerminalResolution] at h
  | opPut =>
    cases res with
    | other n => simp [daemon.isTerminalResolution] at h
    | headlessAuthn ha =>
      obtain ⟨name, hstate⟩ := ha
      cases hstate with
      | unspecified => simp [daemon.isTerminalResolution] at h
      | pending => simp [daemon.isTerminalResolution] at h
      | approved =>
        simp [daemon.isTerminalResolution] at h
        subst h
        rfl
      | denied =>
        simp [daemon.isTerminalResolution] at h
        subst h
        rfl
  | opDelete =>
    simp [daemon.isTerminalResolution] at h
    rw [daemon.processResolutionEvent, h]

/-- Claim C1 witness: with the handle 5 registered for request "r", the
approval put for "r" invokes handle 5 and keeps the registry entry. -/
theorem C1_witness :
    daemon.processResolutionEvent ⟨[("r", 5)], [], 6⟩
        ⟨.opPut, .headlessAuthn ⟨"r", .approved⟩⟩ =
      .ok (daemon.cancelPendingRequest ⟨[("r", 5)], [], 6⟩ "r") ∧
    (daemon.cancelPendingRequest ⟨[("r", 5)], [], 6⟩ "r").pendingRequests =
      (daemon.WatchState.mk [("r", 5)] [] 6).pendingRequests ∧
    ∀ tok, (daemon.WatchState.mk [("r", 5)] [] 6).pendingRequests.lookup "r" = some tok →
      tok ∈ (daemon.cancelPendingRequest ⟨[("r", 5)], [], 6⟩ "r").cancelled :=
  C1_resolutionCancelsButRetains ⟨[("r", 5)], [], 6⟩
    ⟨.opPut, .headlessAuthn ⟨"r", .approved⟩⟩ "r" (by decide)

/- Helper for claim C9: once every entry for a key has been filtered out
of the registry, no further filter selecting that key finds anything. -/
theorem filter_key_erased (l : List (String × Nat)) (uri : String)
    (g : String × Nat → Bool) :
    (l.filter (fun p => !(p.1 == uri))).filter (fun p => p.1 == uri && g p) = [] := by
  induction l with
  | nil => rfl
  | cons p rest ih =>
    cases hp : (p.1 == uri) with
    | true => simp [List.filter_cons, hp, ih]
    | false => simp [List.filter_cons, hp, ih]

/-- Claim C9: startHeadlessWatcher first stops and removes any existing
registry entry for the cluster URI (its cancel function is invoked) and
then registers exactly one fresh cancel entry, so after every Start there
is exactly one active (registered and not cancelled) watch for that
cluster. -/
theorem C9_idempotentReplace (s : daemon.Service) (uri : String) (tok : Nat)
    (hfresh1 : s.cancelledWatchTokens.contains tok = false)
    (hfresh2 : s.headlessWatcherClosers.lookup uri ≠ some tok) :
    ∃ s2, s.startHeadlessWatcher uri tok = .ok s2 ∧
      s2.headlessWatcherClosers.lookup uri = some tok ∧
      s2.activeWatches uri = [tok] ∧
      ∀ old, s.headlessWatcherClosers.lookup uri = some old →
        old ∈ s2.cancelledWatchTokens := by
  obtain ⟨closers, cancelled⟩ := s
  have hmem : tok ∉ cancelled := by simpa using hfresh1
  cases hl : closers.lookup uri with
  | none =>
    refine ⟨⟨(uri, tok) :: closers.filter (fun p => !(p.1 == uri)), cancelled⟩, ?_, ?_, ?_, ?_⟩
    · simp [daemon.Service.startHeadlessWatcher, daemon.Service.stopHeadlessWatcher, hl,
        Err.isNotFound]
    · simp [List.lookup]
    · simp only [daemon.Service.activeWatches]
      rw [List.filter_cons, filter_key_erased]
      simp [hmem]
    · intro old hold
      exact Option.noConfusion hold
  | some oldTok =>
    have hnetok : tok ≠ oldTok := by
      intro hx
      subst hx
      exact hfresh2 hl
    have hnotmem : tok ∉ oldTok :: cancelled := by
      simp [List.mem_cons, hnetok, hmem]
    refine ⟨⟨(uri, tok) ::
        (closers.filter (fun p => !(p.1 == uri))).filter (fun p => !(p.1 == uri)),
        oldTok :: cancelled⟩, ?_, ?_, ?_, ?_⟩
    · simp [daemon.Service.startHeadlessWatcher, daemon.Service.stopHeadlessWatcher, hl,
        Err.isNotFound]
    · simp [List.lookup]
    · simp only [daemon.Service.activeWatches]
      rw [List.filter_cons, filter_key_erased]
      simp [hnotmem]
    · intro old hold
      injection hold with hh
      subst hh
      exact List.mem_cons_self _ _

/-- Claim C9 witness: restarting the watch for cluster "c" (currently
registered with cancel function 1) under fresh cancel function 2 leaves
exactly one active watch, cancel function 2, and invokes function 1. -/
theorem C9_witness :
    ∃ s2, daemon.Service.startHeadlessWatcher ⟨[("c", 1)], []⟩ "c" 2 = .ok s2 ∧
      s2.headlessWatcherClosers.lookup "c" = some 2 ∧
      s2.activeWatches "c" = [2] ∧
      ∀ old, List.lookup "c" [(("c" : String), (1 : Nat))] = some old →
        old ∈ s2.cancelledWatchTokens :=
  C9_idempotentReplace ⟨[("c", 1)], []⟩ "c" 2 rfl (by decide)
